import Mathlib

/-!
# AgentKey credential vault — verification of the core services

A shallow embedding of the agent-key backend (Rust) and proofs about it.

Modelling conventions, used throughout:

* A Rust `u8` byte is a `Nat` (there is no separate byte type); `bytesValid l` says every entry is `< 256`.
  A Rust `&str`/`String` that carries binary or hex data is modelled by the
  list of its UTF-8 bytes (`List Nat`) or of its characters (`List Char`);
  identifiers, plan names, status strings, jti values and error messages are
  Lean `String`s.
* Randomness is made explicit: the random 96-bit nonce that
  `EncryptionService::encrypt` draws from the OS is a parameter of the model.
* AES-256-GCM itself lives in the external `aes_gcm` crate, outside this
  repository.  It is modelled as a deterministic authenticated cipher with
  the same interface and length behaviour: the sealed bytes are
  `plaintext ++ tag` with a 16-byte tag computed from key, nonce and
  plaintext, and opening re-checks the tag.  Everything the repository
  itself does around the primitive — key derivation, hex encoding, the
  minimum-length check, splitting nonce from ciphertext, and which
  arguments even reach the cipher — is translated from the source.
* Database tables are lists of row structures; a SQL `SELECT ... WHERE`
  with `fetch_optional` is `List.find?`, an `UPDATE` is a `List.map`, an
  `INSERT` appends.  `CURRENT_TIMESTAMP` is an explicit `Int` parameter.
-/

namespace AgentKey

/-! ## Bytes and the hex layer (`hex` crate as used by `services/encryption.rs`) -/

/-- Every entry of the list is a genuine byte value. -/
def bytesValid (l : List Nat) : Bool := l.all (· < 256)

/-- Lowercase hex digit for a value `< 16` (`hex::encode` emits lowercase). -/
def hexDigitChar (n : Nat) : Char :=
  if n < 10 then Char.ofNat (48 + n) else Char.ofNat (87 + n)

/-- Value of one hex digit; `hex::decode` accepts both cases. -/
def hexDecodeDigit (c : Char) : Option Nat :=
  if 48 ≤ c.toNat ∧ c.toNat ≤ 57 then some (c.toNat - 48)
  else if 97 ≤ c.toNat ∧ c.toNat ≤ 102 then some (c.toNat - 87)
  else if 65 ≤ c.toNat ∧ c.toNat ≤ 70 then some (c.toNat - 55)
  else none

/-- `hex::encode`: two lowercase digits per byte. -/
def hexEncode : List Nat → List Char
  | [] => []
  | b :: r => hexDigitChar (b / 16) :: hexDigitChar (b % 16) :: hexEncode r

/-- `hex::decode`: fails on odd length or a non-hex character. -/
def hexDecode : List Char → Option (List Nat)
  | [] => some []
  | [_] => none
  | c1 :: c2 :: r =>
    match hexDecodeDigit c1, hexDecodeDigit c2, hexDecode r with
    | some hi, some lo, some rest => some ((16 * hi + lo) :: rest)
    | _, _, _ => none

theorem hexDecodeDigit_hexDigitChar : ∀ n, n < 16 → hexDecodeDigit (hexDigitChar n) = some n := by
  decide

theorem hexDecode_hexEncode (l : List Nat) (h : bytesValid l = true) :
    hexDecode (hexEncode l) = some l := by
  induction l with
  | nil => simp [hexEncode, hexDecode]
  | cons b r ih =>
    have hmem : ∀ x ∈ b :: r, x < 256 := by
      simpa [bytesValid, List.all_eq_true] using h
    have hb : b < 256 := hmem b (List.mem_cons_self b r)
    have hr : bytesValid r = true := by
      simp only [bytesValid, List.all_eq_true, decide_eq_true_eq]
      exact fun x hx => hmem x (List.mem_cons_of_mem _ hx)
    have hhi : b / 16 < 16 := Nat.div_lt_of_lt_mul (by omega)
    have hlo : b % 16 < 16 := Nat.mod_lt _ (by omega)
    simp only [hexEncode, hexDecode, hexDecodeDigit_hexDigitChar _ hhi,
      hexDecodeDigit_hexDigitChar _ hlo, ih hr]
    have hb16 : 16 * (b / 16) + b % 16 = b := by omega
    rw [hb16]

theorem bytesValid_append (a b : List Nat) :
    bytesValid (a ++ b) = (bytesValid a && bytesValid b) := by
  simp [bytesValid]

/-! ## The authenticated cipher (model of AES-256-GCM, `aes_gcm` crate)

The tag is a deterministic 16-byte digest of key, nonce and plaintext.  The
shape (ciphertext length = plaintext length + 16, opening checks the tag and
recovers exactly the sealed plaintext) is what the repository's code relies
on; no claim below needs a cryptographic property of the primitive itself. -/

/-- 16-byte authentication tag of the modelled cipher. -/
def gcmTag (key nonce pt : List Nat) : List Nat :=
  List.replicate 15 0 ++ [(key.sum + 31 * nonce.sum + 61 * pt.sum + pt.length) % 256]

/-- Sealing: ciphertext body (the plaintext, in this model) followed by the tag. -/
def gcmSeal (key nonce pt : List Nat) : List Nat :=
  pt ++ gcmTag key nonce pt

/-- Opening: check the length, split off the tag, re-check it. -/
def gcmOpen (key nonce c : List Nat) : Option (List Nat) :=
  if c.length < 16 then none
  else
    let pt := c.take (c.length - 16)
    if c.drop (c.length - 16) = gcmTag key nonce pt then some pt else none

theorem gcmTag_length (key nonce pt : List Nat) : (gcmTag key nonce pt).length = 16 := by
  simp [gcmTag]

theorem gcmTag_valid (key nonce pt : List Nat) : bytesValid (gcmTag key nonce pt) = true := by
  simp only [bytesValid, List.all_eq_true, decide_eq_true_eq]
  intro b hb
  simp only [gcmTag, List.mem_append, List.mem_replicate, List.mem_singleton] at hb
  rcases hb with ⟨_, rfl⟩ | rfl
  · omega
  · exact Nat.mod_lt _ (by omega)

theorem gcmSeal_length (key nonce pt : List Nat) :
    (gcmSeal key nonce pt).length = pt.length + 16 := by
  simp [gcmSeal, gcmTag_length]

theorem gcmSeal_valid (key nonce pt : List Nat) (h : bytesValid pt = true) :
    bytesValid (gcmSeal key nonce pt) = true := by
  simp [gcmSeal, bytesValid_append, h, gcmTag_valid]

theorem gcmOpen_gcmSeal (key nonce pt : List Nat) :
    gcmOpen key nonce (gcmSeal key nonce pt) = some pt := by
  have htake : (pt ++ gcmTag key nonce pt).take pt.length = pt := List.take_left' rfl
  have hdrop : (pt ++ gcmTag key nonce pt).drop pt.length = gcmTag key nonce pt :=
    List.drop_left' rfl
  simp only [gcmOpen, gcmSeal_length]
  rw [if_neg (by omega)]
  simp only [Nat.add_sub_cancel, gcmSeal]
  rw [hdrop, htake]
  simp

/-! ## `EncryptionService` (`src/services/encryption.rs`) -/

/-- Nonce size in bytes (96 bits as recommended for GCM). -/
def NONCE_SIZE : Nat := 12

/-- Key size in bytes (256 bits for AES-256). -/
def KEY_SIZE : Nat := 32

inductive EncryptionError where
  | EncryptionFailed : String → EncryptionError
  | DecryptionFailed : String → EncryptionError
  | InvalidKeyLength : Nat → Nat → EncryptionError
  | InvalidCiphertext : EncryptionError
  | HexDecodeError : EncryptionError
deriving DecidableEq

structure EncryptionService where
  key : List Nat
deriving DecidableEq

/-- `EncryptionService::new`: the key starts as 32 zero bytes and the first
`min(secret.len(), 32)` bytes of the secret are copied over it. -/
def EncryptionService.new (secret : List Nat) : EncryptionService :=
  ⟨secret.take KEY_SIZE ++ List.replicate (KEY_SIZE - min secret.length KEY_SIZE) 0⟩

/-- `EncryptionService::encrypt`: seal under a fresh nonce (here explicit) and
hex-encode `nonce ++ ciphertext`.  The `aes_gcm` encrypt call cannot fail on
in-memory data, so the `Ok` branch is the only one reachable. -/
def EncryptionService.encrypt (svc : EncryptionService) (nonce pt : List Nat) :
    Except EncryptionError (List Char) :=
  Except.ok (hexEncode (nonce ++ gcmSeal svc.key nonce pt))

/-- `EncryptionService::decrypt`: hex-decode, require at least
`NONCE_SIZE + 16` bytes, split the nonce off, open the ciphertext.
The final `String::from_utf8` of the source is the identity on this model's
byte lists (the bytes of a Rust `String` are valid UTF-8 by construction). -/
def EncryptionService.decrypt (svc : EncryptionService) (encrypted : List Char) :
    Except EncryptionError (List Nat) :=
  match hexDecode encrypted with
  | none => Except.error EncryptionError.HexDecodeError
  | some decoded =>
    if decoded.length < NONCE_SIZE + 16 then Except.error EncryptionError.InvalidCiphertext
    else
      match gcmOpen svc.key (decoded.take NONCE_SIZE) (decoded.drop NONCE_SIZE) with
      | none => Except.error (EncryptionError.DecryptionFailed "aead error")
      | some pt => Except.ok pt

/-! ## The AAD generator (`src/utils/aad.rs`) and its use at call sites -/

/-- A 128-bit unique identifier, as its 16 bytes. -/
structure Uuid where
  bytes : List Nat
  len16 : bytes.length = 16

/-- `AadGenerator::generate`: `agent_id (16 bytes) ++ credential_id (16 bytes)`. -/
def AadGenerator.generate (agentId credentialId : Uuid) : List Nat :=
  agentId.bytes ++ credentialId.bytes

/-- The encryption call of `CredentialService::create_credential`
(`src/services/credential.rs`): the service computes
`aad = AadGenerator::generate(agent_id, credential_id)` and then calls the
encryption service.  `EncryptionService::encrypt`
(`src/services/encryption.rs`) accepts only the plaintext, so the computed
AAD never reaches the cipher; the model binds it and drops it, exactly as
the signatures force. -/
def encryptForPair (svc : EncryptionService) (agentId credentialId : Uuid)
    (nonce pt : List Nat) : Except EncryptionError (List Char) :=
  let _aad := AadGenerator.generate agentId credentialId
  svc.encrypt nonce pt

/-- The decryption call of `CredentialService::decrypt_credential`
(`src/services/credential.rs`) and of
`EphemeralTokenService::generate_token` (`src/services/ephemeral_token.rs`):
both compute `aad = AadGenerator::generate(agent_id, credential_id)` and
then call `EncryptionService::decrypt`, which accepts only the hex input, so
the AAD cannot influence the result. -/
def decryptForPair (svc : EncryptionService) (agentId credentialId : Uuid)
    (encrypted : List Char) : Except EncryptionError (List Nat) :=
  let _aad := AadGenerator.generate agentId credentialId
  svc.decrypt encrypted

/-! ## Claims C2, C8, C9, C1 about the cipher -/

/-- C2: decrypting the output of `encrypt` on a plaintext `pt` (any byte list
of a Rust string, including the empty one) with the same service returns
exactly `pt`.  The AAD named by the claim plays no role: neither `encrypt`
nor `decrypt` accepts one (see `encryptForPair`/`decryptForPair`). -/
theorem cipher_roundtrip (svc : EncryptionService) (nonce pt : List Nat) (ct : List Char)
    (hnl : nonce.length = NONCE_SIZE) (hnv : bytesValid nonce = true)
    (hpv : bytesValid pt = true) (hct : svc.encrypt nonce pt = Except.ok ct) :
    svc.decrypt ct = Except.ok pt := by
  have hctdef : ct = hexEncode (nonce ++ gcmSeal svc.key nonce pt) := by
    simpa [EncryptionService.encrypt] using hct.symm
  subst hctdef
  have hvalid : bytesValid (nonce ++ gcmSeal svc.key nonce pt) = true := by
    simp [bytesValid_append, hnv, gcmSeal_valid _ _ _ hpv]
  have hdec := hexDecode_hexEncode _ hvalid
  have hlen : (nonce ++ gcmSeal svc.key nonce pt).length = NONCE_SIZE + (pt.length + 16) := by
    simp [hnl, gcmSeal_length]
  have htake : (nonce ++ gcmSeal svc.key nonce pt).take NONCE_SIZE = nonce :=
    List.take_left' hnl
  have hdrop : (nonce ++ gcmSeal svc.key nonce pt).drop NONCE_SIZE = gcmSeal svc.key nonce pt :=
    List.drop_left' hnl
  simp only [EncryptionService.decrypt, hdec]
  rw [if_neg (by rw [hlen]; omega)]
  rw [htake, hdrop, gcmOpen_gcmSeal]

def svcRoundtrip : EncryptionService := EncryptionService.new (List.range 32)

def nonceRoundtrip : List Nat := List.range 12

def ctRoundtrip : List Char := hexEncode (nonceRoundtrip ++ gcmSeal svcRoundtrip.key nonceRoundtrip [])

theorem cipher_roundtrip_witness : svcRoundtrip.decrypt ctRoundtrip = Except.ok [] :=
  cipher_roundtrip svcRoundtrip nonceRoundtrip [] ctRoundtrip
    (by decide) (by decide) (by decide) rfl

/-- C8: any decryption input whose hex-decoded byte length is below
`NONCE_SIZE + 16 = 28` fails with `InvalidCiphertext`; no plaintext is
returned. -/
theorem decrypt_short_input_invalid_ciphertext (svc : EncryptionService) (s : List Char)
    (d : List Nat) (hdec : hexDecode s = some d) (hshort : d.length < 28) :
    svc.decrypt s = Except.error EncryptionError.InvalidCiphertext := by
  simp only [EncryptionService.decrypt, hdec]
  rw [if_pos (by simp only [NONCE_SIZE]; omega)]

theorem decrypt_short_input_witness :
    (EncryptionService.new []).decrypt [Char.ofNat 97, Char.ofNat 98, Char.ofNat 99, Char.ofNat 100]
      = Except.error EncryptionError.InvalidCiphertext :=
  decrypt_short_input_invalid_ciphertext (EncryptionService.new [])
    [Char.ofNat 97, Char.ofNat 98, Char.ofNat 99, Char.ofNat 100] [171, 205]
    (by decide) (by decide)

/-- C9: `EncryptionService::new` is total — the key it derives is the first
`min(len, 32)` bytes of the secret zero-padded to 32 bytes — and two secrets
agreeing on their first 32 bytes yield services with identical `encrypt` and
`decrypt`. -/
theorem new_key_derivation_and_agreement (s1 s2 nonce pt : List Nat) (ct : List Char)
    (h : s1.take 32 = s2.take 32) :
    (EncryptionService.new s1).key = s1.take 32 ++ List.replicate (32 - min s1.length 32) 0
    ∧ (EncryptionService.new s1).key.length = 32
    ∧ (EncryptionService.new s1).encrypt nonce pt = (EncryptionService.new s2).encrypt nonce pt
    ∧ (EncryptionService.new s1).decrypt ct = (EncryptionService.new s2).decrypt ct := by
  have hmin : min s1.length 32 = min s2.length 32 := by
    have h1 : (s1.take 32).length = (s2.take 32).length := by rw [h]
    simp only [List.length_take] at h1
    omega
  have hkeyeq : EncryptionService.new s1 = EncryptionService.new s2 := by
    simp [EncryptionService.new, KEY_SIZE, h, hmin]
  refine ⟨rfl, ?_, by rw [hkeyeq], by rw [hkeyeq]⟩
  simp only [EncryptionService.new, KEY_SIZE, List.length_append, List.length_take,
    List.length_replicate]
  omega

theorem new_key_agreement_witness :
    (List.replicate 33 7).take 32 = (List.replicate 32 7 ++ [9]).take 32
    ∧ (EncryptionService.new (List.replicate 33 7)).encrypt (List.range 12) [1, 2]
        = (EncryptionService.new (List.replicate 32 7 ++ [9])).encrypt (List.range 12) [1, 2] :=
  ⟨by decide,
   (new_key_derivation_and_agreement (List.replicate 33 7) (List.replicate 32 7 ++ [9])
     (List.range 12) [1, 2] [Char.ofNat 97] (by decide)).2.2.1⟩

def agentOne : Uuid := ⟨List.replicate 16 1, by decide⟩

def agentTwo : Uuid := ⟨List.replicate 16 2, by decide⟩

def credOne : Uuid := ⟨List.replicate 16 3, by decide⟩

def svcAad : EncryptionService := EncryptionService.new (List.range 32)

def nonceAad : List Nat := List.replicate 12 9

def ptAad : List Nat := [115, 101, 99, 114, 101, 116]

def blobAad : List Char := hexEncode (nonceAad ++ gcmSeal svcAad.key nonceAad ptAad)

/-- C1 fails on the code: `EncryptionService::encrypt`/`decrypt` accept no AAD
parameter, so the AAD the call sites compute never reaches the cipher.  At a
concrete input: a blob produced in the context that computed
`aad(agentOne, credOne)` decrypts to the plaintext in the context that
computes `aad(agentTwo, credOne)`, a distinct pair — and the result cannot
depend on the pair at all. -/
theorem aad_not_bound_to_pair :
    agentOne.bytes ≠ agentTwo.bytes
    ∧ encryptForPair svcAad agentOne credOne nonceAad ptAad = Except.ok blobAad
    ∧ decryptForPair svcAad agentTwo credOne blobAad = Except.ok ptAad
    ∧ decryptForPair svcAad agentTwo credOne blobAad
        = decryptForPair svcAad agentOne credOne blobAad :=
  ⟨by decide, rfl, rfl, rfl⟩

/-! ## `ApiError` (`src/errors.rs`) -/

inductive ApiError where
  | Unauthorized : String → ApiError
  | Forbidden : String → ApiError
  | NotFound : String → ApiError
  | Conflict : String → ApiError
  | BadRequest : String → ApiError
  | ValidationError : String → ApiError
  | InternalError : String → ApiError
  | DatabaseError : String → ApiError
  | RedisError : String → ApiError
  | EncryptionError : String → ApiError
  | JwtError : String → ApiError
  | ServiceUnavailable : String → ApiError
deriving DecidableEq

/-! ## `AuthService::login` (`src/services/auth.rs`) and claim C3 -/

structure UserRow where
  id : String
  email : String
  password_hash : String
  team_id : String
  role : String
  is_active : Bool
deriving DecidableEq

/-- `AuthService::login`, as a function of the request-validation outcome,
the `User::find_by_email` result and the bcrypt verification outcome
(`none` models a bcrypt `Err`, `some b` the verified boolean).  Audit-log
appends, `last_login`, token minting and response assembly are elided: they
do not affect which error is returned on the branches modelled here; on
success the user row stands in for the `AuthResponse`. -/
def AuthService.login (requestValid : Bool) (userRow : Option UserRow)
    (verifyOutcome : Option Bool) : Except ApiError UserRow :=
  if !requestValid then Except.error (ApiError.ValidationError "invalid request")
  else
    match userRow with
    | none => Except.error (ApiError.Unauthorized "Invalid credentials")
    | some user =>
      if !user.is_active then Except.error (ApiError.Unauthorized "Account is disabled")
      else
        match verifyOutcome with
        | none => Except.error (ApiError.InternalError "Authentication failed")
        | some ok =>
          if !ok then Except.error (ApiError.Unauthorized "Invalid credentials")
          else Except.ok user

def inactiveUser : UserRow :=
  ⟨"u-1", "dave@example.com", "bcrypt-hash", "t-1", "admin", false⟩

/-- C3 counterexample: for an existing but inactive user the code answers
`Unauthorized("Account is disabled")`, not `Unauthorized("Invalid
credentials")` — the response does disclose which condition held. -/
theorem login_inactive_discloses_disabled :
    AuthService.login true (some inactiveUser) (some true)
        = Except.error (ApiError.Unauthorized "Account is disabled")
    ∧ ApiError.Unauthorized "Account is disabled"
        ≠ ApiError.Unauthorized "Invalid credentials" :=
  ⟨rfl, by decide⟩

/-- C3 amended: a login attempt with no user row answers
`Unauthorized("Invalid credentials")`; a login attempt whose user exists but
is not active answers `Unauthorized("Account is disabled")`, so the two
conditions are distinguishable by the message. -/
theorem login_missing_vs_inactive (u : UserRow) (v : Option Bool) (h : u.is_active = false) :
    AuthService.login true none v = Except.error (ApiError.Unauthorized "Invalid credentials")
    ∧ AuthService.login true (some u) v
        = Except.error (ApiError.Unauthorized "Account is disabled") := by
  exact ⟨rfl, by simp [AuthService.login, h]⟩

theorem login_missing_vs_inactive_witness :
    AuthService.login true none (some true)
        = Except.error (ApiError.Unauthorized "Invalid credentials")
    ∧ AuthService.login true (some inactiveUser) (some true)
        = Except.error (ApiError.Unauthorized "Account is disabled") :=
  login_missing_vs_inactive inactiveUser (some true) rfl

/-! ## The credential version chain (`src/models.rs`, `Credential::create` /
`Credential::rotate`) and claim C4

Only these two operations touch the `credential_versions` rows of a
credential, so the state after `k` rotations is the fold of `rotateVersions`
over `createVersions`. -/

inductive VersionStatus where
  | active
  | superseded
  | expired
deriving DecidableEq

structure VersionRow where
  version : Nat
  status : VersionStatus
  expired_at : Option Int
deriving DecidableEq

/-- `Credential::create` inserts the single row `(version 1, 'active')`
(`expired_at` unset). -/
def createVersions : List VersionRow :=
  [VersionRow.mk 1 VersionStatus.active none]

/-- `Credential::rotate` on the version rows of one credential: read
`COUNT(*)` first, mark every `'active'` row `'superseded'` with
`expired_at = CURRENT_TIMESTAMP`, then insert `(count+1, 'active')`. -/
def rotateVersions (now : Int) (rows : List VersionRow) : List VersionRow :=
  (rows.map fun r =>
    if r.status = VersionStatus.active then
      { r with status := VersionStatus.superseded, expired_at := some now }
    else r)
  ++ [VersionRow.mk (rows.length + 1) VersionStatus.active none]

/-- State after `k` successful rotations of a freshly created credential;
`ts i` is the `CURRENT_TIMESTAMP` of rotation `i`. -/
def rotateKVersions (ts : Nat → Int) : Nat → List VersionRow
  | 0 => createVersions
  | k + 1 => rotateVersions (ts k) (rotateKVersions ts k)

theorem rotateKVersions_closed (ts : Nat → Int) (k : Nat) :
    rotateKVersions ts k
      = (List.range k).map (fun i => VersionRow.mk (i + 1) VersionStatus.superseded (some (ts i)))
        ++ [VersionRow.mk (k + 1) VersionStatus.active none] := by
  induction k with
  | zero => rfl
  | succ k ih =>
    rw [rotateKVersions, ih, rotateVersions]
    rw [List.map_append, List.map_map]
    have hfix : (List.range k).map
        ((fun r => if r.status = VersionStatus.active then
            { r with status := VersionStatus.superseded, expired_at := some (ts k) }
          else r)
          ∘ (fun i => VersionRow.mk (i + 1) VersionStatus.superseded (some (ts i))))
        = (List.range k).map
            (fun i => VersionRow.mk (i + 1) VersionStatus.superseded (some (ts i))) := by
      apply List.map_congr_left
      intro i _
      rfl
    rw [hfix]
    simp only [List.map_cons, List.map_nil, List.length_append, List.length_map,
      List.length_range, List.length_cons, List.length_nil, List.range_succ, List.map_append,
      List.append_assoc]
    rfl

/-- C4: after `k` rotations the version rows are exactly versions
`1 .. k+1` in order (dense, no gaps), exactly one row is `'active'` and it
carries the highest version `k+1`, and every `'superseded'` row has
`expired_at` set. -/
theorem version_chain_invariant (ts : Nat → Int) (k : Nat) :
    (rotateKVersions ts k).map (fun r => r.version) = List.range' 1 (k + 1)
    ∧ ((rotateKVersions ts k).filter
        (fun r => decide (r.status = VersionStatus.active))).map (fun r => r.version) = [k + 1]
    ∧ ((rotateKVersions ts k).filter
        (fun r => decide (r.status = VersionStatus.superseded))).all
          (fun r => r.expired_at.isSome) = true := by
  rw [rotateKVersions_closed]
  refine ⟨?_, ?_, ?_⟩
  · have hr' : List.range' 1 (k + 1) = (List.range (k + 1)).map (fun i => i + 1) := by
      rw [List.range'_eq_map_range]
      exact List.map_congr_left (fun x _ => Nat.add_comm 1 x)
    rw [hr', List.range_succ, List.map_append, List.map_append, List.map_map]
    have h1 : (List.range k).map
        ((fun r => r.version)
          ∘ (fun i => VersionRow.mk (i + 1) VersionStatus.superseded (some (ts i))))
        = (List.range k).map (fun i => i + 1) := List.map_congr_left (fun i _ => rfl)
    rw [h1]
    rfl
  · rw [List.filter_append]
    have h1 : ((List.range k).map
        (fun i => VersionRow.mk (i + 1) VersionStatus.superseded (some (ts i)))).filter
          (fun r => decide (r.status = VersionStatus.active)) = [] := by
      apply List.filter_eq_nil_iff.2
      intro r hr
      rcases List.mem_map.1 hr with ⟨i, _, rfl⟩
      intro hc
      exact Bool.noConfusion hc
    rw [h1]
    rfl
  · rw [List.filter_append, List.all_append]
    have h1 : ((List.range k).map
        (fun i => VersionRow.mk (i + 1) VersionStatus.superseded (some (ts i)))).all
          (fun r => r.expired_at.isSome) = true := by
      simp only [List.all_eq_true]
      intro r hr
      rcases List.mem_map.1 hr with ⟨i, _, rfl⟩
      rfl
    have h2 : ((List.range k).map
        (fun i => VersionRow.mk (i + 1) VersionStatus.superseded (some (ts i)))).filter
          (fun r => decide (r.status = VersionStatus.superseded))
        = (List.range k).map
            (fun i => VersionRow.mk (i + 1) VersionStatus.superseded (some (ts i))) := by
      apply List.filter_eq_self.2
      intro r hr
      rcases List.mem_map.1 hr with ⟨i, _, rfl⟩
      rfl
    rw [h2, h1]
    rfl

/-! ## `EphemeralTokenService::revoke_token` (`src/services/ephemeral_token.rs`)
and the `EphemeralToken` / `TokenUsageLog` rows (`src/models.rs`) — claim C5 -/

structure EphemeralTokenRow where
  jti : String
  agent_id : String
  credential_id : String
  team_id : String
  token_signature : String
  status : String
  expires_at : Int
  revoked_at : Option Int
deriving DecidableEq

structure UsageLogEntry where
  jti : String
  agent_id : String
  team_id : String
  action : String
  ip_address : Option String
deriving DecidableEq

/-- The stored ephemeral-token rows together with the `token_usage_logs`
audit rows. -/
structure TokenStore where
  tokens : List EphemeralTokenRow
  usage_log : List UsageLogEntry
deriving DecidableEq

/-- `EphemeralToken::find_by_jti`: `SELECT * FROM ephemeral_tokens WHERE jti = $1`
with `fetch_optional`. -/
def findByJti (rows : List EphemeralTokenRow) (jti : String) : Option EphemeralTokenRow :=
  rows.find? (fun r => r.jti == jti)

/-- `EphemeralToken::revoke`: `UPDATE ephemeral_tokens SET status = 'revoked',
revoked_at = CURRENT_TIMESTAMP WHERE jti = $1`. -/
def revokeRows (rows : List EphemeralTokenRow) (jti : String) (now : Int) :
    List EphemeralTokenRow :=
  rows.map fun r =>
    if r.jti == jti then { r with status := "revoked", revoked_at := some now } else r

/-- `TokenUsageLog::log_action`: one INSERT into `token_usage_logs`. -/
def logAction (log : List UsageLogEntry) (jti agent_id team_id action : String)
    (ip : Option String) : List UsageLogEntry :=
  log ++ [UsageLogEntry.mk jti agent_id team_id action ip]

/-- `EphemeralTokenService::revoke_token`: load the row by jti
(`NotFound` when absent), return success unchanged when already revoked,
otherwise update the row and append the `"revoked"` usage-log entry. -/
def revoke_token (st : TokenStore) (jti : String) (ip : Option String) (now : Int) :
    Except ApiError TokenStore :=
  match findByJti st.tokens jti with
  | none => Except.error (ApiError.NotFound "Token not found")
  | some tok =>
    if tok.status == "revoked" then Except.ok st
    else Except.ok
      { tokens := revokeRows st.tokens jti now
        usage_log := logAction st.usage_log jti tok.agent_id tok.team_id "revoked" ip }

/-- C5: revoking a token whose persisted row is already `'revoked'` returns
success with the store unchanged (no row update, no new usage-log entry),
and revoking a jti with no persisted row returns `NotFound`. -/
theorem revoke_idempotent_and_unknown_not_found (st : TokenStore)
    (jtiKnown jtiUnknown : String) (tok : EphemeralTokenRow) (ip : Option String) (now : Int)
    (hfound : findByJti st.tokens jtiKnown = some tok)
    (hrevoked : tok.status = "revoked")
    (hmissing : findByJti st.tokens jtiUnknown = none) :
    revoke_token st jtiKnown ip now = Except.ok st
    ∧ revoke_token st jtiUnknown ip now = Except.error (ApiError.NotFound "Token not found") := by
  constructor
  · simp [revoke_token, hfound, hrevoked]
  · simp [revoke_token, hmissing]

def revokedRow : EphemeralTokenRow :=
  ⟨"jti-1", "a-1", "c-1", "t-1", "sigprefix", "revoked", 1000, some 900⟩

def storeC5 : TokenStore := ⟨[revokedRow], []⟩

theorem revoke_idempotent_witness :
    revoke_token storeC5 "jti-1" none 950 = Except.ok storeC5
    ∧ revoke_token storeC5 "jti-2" none 950
        = Except.error (ApiError.NotFound "Token not found") :=
  revoke_idempotent_and_unknown_not_found storeC5 "jti-1" "jti-2" revokedRow none 950
    (by decide) rfl (by decide)

/-! ## `QuotaService` (`src/services/quota.rs`) — claims C7 and C10 -/

structure AgentQuota where
  agent_id : String
  team_id : String
  month_year : String
  api_calls_used : Int
  api_calls_limit : Int
  key_rotations_used : Int
  key_rotations_limit : Int
deriving DecidableEq

/-- The `SELECT * FROM agent_quotas WHERE agent_id = $1 AND month_year = $2`
lookup (`fetch_optional`) inside `QuotaService::check_api_call_quota`. -/
def fetchQuota (rows : List AgentQuota) (agent_id month_year : String) : Option AgentQuota :=
  rows.find? (fun r => r.agent_id == agent_id && r.month_year == month_year)

/-- `QuotaService::check_api_call_quota`; `month_year` is the caller's
current `YYYY-MM` bucket (`get_current_month_year()` made explicit).  A found
row admits when its limit is `-1` (unlimited) or `used < limit`; a missing
row denies. -/
def check_api_call_quota (rows : List AgentQuota) (agent_id month_year : String) : Bool :=
  match fetchQuota rows agent_id month_year with
  | some q =>
    if q.api_calls_limit = -1 then true
    else decide (q.api_calls_used < q.api_calls_limit)
  | none => false

/-- The plan → `(api_calls_limit, key_rotations_limit)` mapping written by
`QuotaService::initialize_agent_quota`; any plan other than `"enterprise"`
and `"pro"` (in particular `"free"`) gets the free limits. -/
def initialize_limits (plan : String) : Int × Int :=
  if plan = "enterprise" then (-1, 100)
  else if plan = "pro" then (100000, 50)
  else (1000, 5)

/-- C7: the monthly API-call check admits exactly when the row's limit is
`-1` or `used < limit`, and quota initialisation writes `(1000, 5)` for
`"free"`, `(100000, 50)` for `"pro"` and `(-1, 100)` for `"enterprise"`. -/
theorem quota_admit_iff_and_plan_limits (rows : List AgentQuota) (a m : String)
    (q : AgentQuota) (hfetch : fetchQuota rows a m = some q) :
    (check_api_call_quota rows a m = true
      ↔ (q.api_calls_limit = -1 ∨ q.api_calls_used < q.api_calls_limit))
    ∧ initialize_limits "free" = (1000, 5)
    ∧ initialize_limits "pro" = (100000, 50)
    ∧ initialize_limits "enterprise" = (-1, 100) := by
  refine ⟨?_, by decide, by decide, by decide⟩
  simp only [check_api_call_quota, hfetch]
  by_cases hl : q.api_calls_limit = -1
  · simp [hl]
  · simp [hl]

def quotaRowFree : AgentQuota := ⟨"a-1", "t-1", "2026-10", 4, 1000, 0, 5⟩

theorem quota_admit_iff_witness :
    (check_api_call_quota [quotaRowFree] "a-1" "2026-10" = true
      ↔ (quotaRowFree.api_calls_limit = -1
          ∨ quotaRowFree.api_calls_used < quotaRowFree.api_calls_limit))
    ∧ initialize_limits "free" = (1000, 5)
    ∧ initialize_limits "pro" = (100000, 50)
    ∧ initialize_limits "enterprise" = (-1, 100) :=
  quota_admit_iff_and_plan_limits [quotaRowFree] "a-1" "2026-10" quotaRowFree (by decide)

/-- C10: when no quota row matches `(agent, current month bucket)` the check
denies (`false`) rather than failing or admitting — in particular an agent
whose only rows were initialised in earlier months is denied after month
rollover until a row for the new bucket exists. -/
theorem quota_missing_month_denies (rows : List AgentQuota) (a m : String)
    (h : ∀ r ∈ rows, r.agent_id = a → r.month_year ≠ m) :
    check_api_call_quota rows a m = false := by
  have hnone : fetchQuota rows a m = none := by
    apply List.find?_eq_none.2
    intro r hr
    simp only [Bool.and_eq_true, beq_iff_eq, not_and]
    intro ha hm
    exact h r hr ha hm
  simp [check_api_call_quota, hnone]

def quotaRowSep : AgentQuota := ⟨"a-1", "t-1", "2026-09", 0, 1000, 0, 5⟩

theorem quota_missing_month_denies_witness :
    check_api_call_quota [quotaRowSep] "a-1" "2026-10" = false :=
  quota_missing_month_denies [quotaRowSep] "a-1" "2026-10" (by decide)

/-! ## `JwtService` (`src/services/jwt.rs`) — claim C6

A signed token is modelled as its decoded JSON claims object together with
the algorithm of its header and the secret that produced its MAC; verifying
the HS256 signature with a secret succeeds exactly when the secret matches
(the idealisation of an unforgeable MAC).  `serde` deserialization of the
claims object into a claims struct requires every struct field to be present
with the right type — `RefreshClaims` has no default for `token_type`, so a
payload without that key fails with a `Json` error, which
`From<jsonwebtoken::errors::Error>` maps to `ValidationFailed` (the
catch-all arm of the `match` in `src/services/jwt.rs`). -/

inductive ClaimVal where
  | s : String → ClaimVal
  | i : Int → ClaimVal
deriving DecidableEq

/-- JSON field lookup in a claims object. -/
def payloadGet (p : List (String × ClaimVal)) (k : String) : Option ClaimVal :=
  (p.find? (fun kv => kv.1 == k)).map (fun kv => kv.2)

structure SignedToken where
  alg : String
  payload : List (String × ClaimVal)
  mac_secret : String
deriving DecidableEq

/-- The `jsonwebtoken::errors::ErrorKind` cases this model distinguishes. -/
inductive JwtErrorKind where
  | ExpiredSignature
  | InvalidSignature
  | InvalidTokenKind
  | InvalidIssuer
  | MissingRequiredClaim
  | InvalidAlgorithm
  | Json
deriving DecidableEq

inductive JwtError where
  | CreationFailed : String → JwtError
  | ValidationFailed : String → JwtError
  | TokenExpired : JwtError
  | InvalidToken : String → JwtError
deriving DecidableEq

/-- Display text of the error kinds that reach the `ValidationFailed`
catch-all (the model's stand-in for `err.to_string()`). -/
def jwtKindMessage : JwtErrorKind → String
  | JwtErrorKind.InvalidIssuer => "InvalidIssuer"
  | JwtErrorKind.MissingRequiredClaim => "Missing required claim"
  | JwtErrorKind.InvalidAlgorithm => "InvalidAlgorithm"
  | JwtErrorKind.Json => "JSON error: missing field"
  | _ => "validation error"

/-- `impl From<jsonwebtoken::errors::Error> for JwtError`
(`src/services/jwt.rs` lines 27-37): `ExpiredSignature → TokenExpired`,
`InvalidToken → InvalidToken("Malformed token")`,
`InvalidSignature → InvalidToken("Invalid signature")`, everything else —
including `Json` deserialization failures — `ValidationFailed`. -/
def jwtErrorFrom : JwtErrorKind → JwtError
  | JwtErrorKind.ExpiredSignature => JwtError.TokenExpired
  | JwtErrorKind.InvalidTokenKind => JwtError.InvalidToken "Malformed token"
  | JwtErrorKind.InvalidSignature => JwtError.InvalidToken "Invalid signature"
  | k => JwtError.ValidationFailed (jwtKindMessage k)

structure JwtService where
  secret : String
  issuer : String
  expiry_hours : Int
deriving DecidableEq

/-- `JwtService::new`: issuer is always `"agentkey"`. -/
def JwtService.new (secret : String) (expiry_hours : Int) : JwtService :=
  ⟨secret, "agentkey", expiry_hours⟩

/-- `jsonwebtoken::decode` under `Validation::default()` with
`set_issuer(["agentkey"])`: check the algorithm, verify the MAC, require and
check `exp` (leeway elided), require and check `iss`; `nbf` is not validated
by the default validation.  Returns the raw claims object for the typed
deserialization step. -/
def jwtDecodePayload (secret iss : String) (now : Int) (tok : SignedToken) :
    Except JwtErrorKind (List (String × ClaimVal)) :=
  if tok.alg ≠ "HS256" then Except.error JwtErrorKind.InvalidAlgorithm
  else if tok.mac_secret ≠ secret then Except.error JwtErrorKind.InvalidSignature
  else
    match payloadGet tok.payload "exp" with
    | some (ClaimVal.i e) =>
      if e < now then Except.error JwtErrorKind.ExpiredSignature
      else
        match payloadGet tok.payload "iss" with
        | some (ClaimVal.s s0) =>
          if s0 = iss then Except.ok tok.payload else Except.error JwtErrorKind.InvalidIssuer
        | _ => Except.error JwtErrorKind.MissingRequiredClaim
    | _ => Except.error JwtErrorKind.MissingRequiredClaim

/-- `RefreshClaims` (`src/services/jwt.rs`): the refresh-token claims
struct; `token_type` is a mandatory field. -/
structure RefreshClaims where
  sub : String
  team_id : String
  role : String
  exp : Int
  iat : Int
  nbf : Int
  iss : String
  token_type : String
deriving DecidableEq

/-- `serde` deserialization of a claims object into `RefreshClaims`: every
field must be present with its declared type, otherwise a `Json` error. -/
def refreshClaimsFromPayload (p : List (String × ClaimVal)) : Option RefreshClaims :=
  match payloadGet p "sub", payloadGet p "team_id", payloadGet p "role",
      payloadGet p "exp", payloadGet p "iat", payloadGet p "nbf",
      payloadGet p "iss", payloadGet p "token_type" with
  | some (ClaimVal.s a), some (ClaimVal.s b), some (ClaimVal.s c), some (ClaimVal.i d),
      some (ClaimVal.i e), some (ClaimVal.i f), some (ClaimVal.s g), some (ClaimVal.s h) =>
    some (RefreshClaims.mk a b c d e f g h)
  | _, _, _, _, _, _, _, _ => none

/-- `JwtService::create_token_with_expiry`: HS256 access token whose claims
are `sub`, `team_id`, `role`, `exp = now + hours·3600`, `iat`, `nbf`, `iss`
— and no `token_type` claim (`Claims` has no such field). -/
def JwtService.create_token_with_expiry (svc : JwtService)
    (user_id team_id role : String) (expiry_hours now : Int) : SignedToken :=
  { alg := "HS256"
    payload := [("sub", ClaimVal.s user_id), ("team_id", ClaimVal.s team_id),
                ("role", ClaimVal.s role), ("exp", ClaimVal.i (now + expiry_hours * 3600)),
                ("iat", ClaimVal.i now), ("nbf", ClaimVal.i now),
                ("iss", ClaimVal.s svc.issuer)]
    mac_secret := svc.secret }

/-- `JwtService::verify_refresh_token`: decode as `RefreshClaims` (signature,
`exp`, `iss`, then the typed deserialization), then require
`token_type == "refresh"`, failing with `InvalidToken("Not a refresh
token")` only in that last step. -/
def JwtService.verify_refresh_token (svc : JwtService) (now : Int) (tok : SignedToken) :
    Except JwtError RefreshClaims :=
  match jwtDecodePayload svc.secret svc.issuer now tok with
  | Except.error k => Except.error (jwtErrorFrom k)
  | Except.ok p =>
    match refreshClaimsFromPayload p with
    | none => Except.error (jwtErrorFrom JwtErrorKind.Json)
    | some c =>
      if c.token_type ≠ "refresh" then Except.error (JwtError.InvalidToken "Not a refresh token")
      else Except.ok c

/-- `true` exactly on the `InvalidToken` error kind. -/
def isInvalidTokenKindErr : Except JwtError RefreshClaims → Bool
  | Except.error (JwtError.InvalidToken _) => true
  | _ => false

def jwtSvcSix : JwtService := JwtService.new "test-secret-key-must-be-32-chars!" 24

def accessTokSix : SignedToken :=
  jwtSvcSix.create_token_with_expiry "user-1" "team-1" "admin" 24 0

/-- C6 counterexample: a concrete unexpired access token presented to
refresh verification fails with `ValidationFailed` (the claims object has no
`token_type` field, so typed deserialization raises a `Json` error), not
with the `InvalidToken` kind the claim names. -/
theorem access_token_refresh_error_is_not_invalid_token :
    jwtSvcSix.verify_refresh_token 0 accessTokSix
        = Except.error (JwtError.ValidationFailed (jwtKindMessage JwtErrorKind.Json))
    ∧ isInvalidTokenKindErr (jwtSvcSix.verify_refresh_token 0 accessTokSix) = false :=
  ⟨rfl, rfl⟩

/-- C6 amended: every unexpired access token minted by
`create_token_with_expiry` fails refresh verification, but with the
`ValidationFailed` kind (missing `token_type` field fails deserialization);
the `InvalidToken` kind arises only for tokens that do carry a `token_type`
different from `"refresh"`. -/
theorem access_token_fails_refresh_with_validation_failed (svc : JwtService)
    (user_id team_id role : String) (expiry_hours now verifyNow : Int)
    (hexp : verifyNow ≤ now + expiry_hours * 3600) :
    svc.verify_refresh_token verifyNow
        (svc.create_token_with_expiry user_id team_id role expiry_hours now)
      = Except.error (JwtError.ValidationFailed (jwtKindMessage JwtErrorKind.Json)) := by
  have hlt : ¬(now + expiry_hours * 3600 < verifyNow) := by omega
  simp [JwtService.verify_refresh_token, JwtService.create_token_with_expiry,
    jwtDecodePayload, refreshClaimsFromPayload, payloadGet, jwtErrorFrom, hlt]

theorem access_token_fails_refresh_witness :
    jwtSvcSix.verify_refresh_token 100 (jwtSvcSix.create_token_with_expiry "u" "t" "viewer" 24 0)
      = Except.error (JwtError.ValidationFailed (jwtKindMessage JwtErrorKind.Json)) :=
  access_token_fails_refresh_with_validation_failed jwtSvcSix "u" "t" "viewer" 24 0 100
    (by omega)

end AgentKey
